import Mathlib

/-!
Verification development for the security-deposit frontend's transaction
orchestration and reconciliation engine.

The embedding models the `Home` component of `src/app/page` (the approve /
deposit handlers, the polling status reads and the retry machinery) and the
contract-utilities construction of `src/app/contracts.ts`.  React state is
modelled as an explicit `AppState` record; every outbound ledger-client call
is an entry of an environment record whose outcome (`ok` value or thrown
error message) drives the handler, and the list of calls actually issued is
returned alongside the final state.  Amounts (TS `bigint`) are modelled as
`Nat` (they are uint256 token quantities).
-/

namespace SecurityDepositFe

/-- Whether the second list is a prefix of the first, on characters
(helper for the JS `String.prototype.includes` used by all classifiers). -/
def charsStartsWith : List Char → List Char → Bool
  | _, [] => true
  | [], _ :: _ => false
  | a :: as, b :: bs => a == b && charsStartsWith as bs

/-- Whether `pat` occurs as a contiguous run somewhere in `l`. -/
def charsIncludes : List Char → List Char → Bool
  | [], pat => pat.isEmpty
  | a :: as, pat => charsStartsWith (a :: as) pat || charsIncludes as pat

/-- JS `s.includes(pat)`: substring containment on strings. -/
def strIncludes (s pat : String) : Bool :=
  charsIncludes s.data pat.data

/-- `approvalStatus` of the page component: 'idle' | 'pending' | 'approved' | 'failed'. -/
inductive ApprovalStatus where
  | idle
  | pending
  | approved
  | failed
  deriving DecidableEq, Repr

/-- `depositStatus` of the page component: 'idle' | 'pending' | 'success' | 'failed'. -/
inductive DepositStatus where
  | idle
  | pending
  | success
  | failed
  deriving DecidableEq, Repr

/-- The React state of the `Home` component that the orchestration logic
reads and writes: the active identity (`address`, none when no wallet is
connected), the two sub-machine states, the published has-committed flag
(`hasDeposited`, `none` = unknown), the read-path error strings
(`depositCheckError`, `networkError`), the write-path error popup message
(`error`) and the backoff attempt counter (`retryCount`). -/
structure AppState where
  address : Option String
  approvalStatus : ApprovalStatus
  depositStatus : DepositStatus
  hasDeposited : Option Bool
  depositCheckError : Option String
  networkError : Option String
  error : Option String
  retryCount : Nat
  deriving DecidableEq, Repr

/-- Outcome of one outbound ledger-client call: a returned value or a thrown
error whose message string is what the handler's catch block classifies. -/
inductive CallResult (α : Type) where
  | ok (v : α)
  | err (msg : String)
  deriving DecidableEq, Repr

/-- The distinct ledger-client calls the handlers can issue, used to record
which calls an invocation actually made. -/
inductive LedgerCall where
  | createUtils
  | createReadOnlyUtils
  | getFlatDepositAmount
  | getUSDTAllowance
  | getUSDTBalance
  | hasDepositedRead
  | submitApprove
  | submitDeposit
  | txWait
  deriving DecidableEq, Repr

/-- Result of a write handler: the final component state and the ledger
calls issued, in order. -/
structure HandlerResult where
  state : AppState
  calls : List LedgerCall
  deriving DecidableEq, Repr

/-- Result of a polling read: final state, calls issued, and the delay (ms)
of the automatic backoff retry scheduled by this invocation, if any. -/
structure PollResult where
  state : AppState
  calls : List LedgerCall
  scheduledDelay : Option Nat
  deriving DecidableEq, Repr

/-- The error categories distinguished by the write handlers' catch blocks
(first substring match wins, mirroring the if/else chains of
`handleApprove` and `handleDeposit`). -/
inductive WriteErrKind where
  | userRejected
  | insufficientFunds
  | gasIssue
  | networkIssue
  | allowanceIssue
  | nonceIssue
  | reverted
  | rateLimited
  | alreadyDeposited
  | unknown
  deriving DecidableEq, Repr

/-- Classification chain of `handleApprove`'s catch block (part_002 lines
371-390), in source order; `allowanceIssue` and `alreadyDeposited` are never
produced here. -/
def classifyApproveErr (m : String) : WriteErrKind :=
  if strIncludes m "user rejected" || strIncludes m "User denied" then .userRejected
  else if strIncludes m "insufficient funds" || strIncludes m "balance" then .insufficientFunds
  else if strIncludes m "gas" || strIncludes m "Gas" then .gasIssue
  else if strIncludes m "network" || strIncludes m "Network" || strIncludes m "timeout" then .networkIssue
  else if strIncludes m "nonce" || strIncludes m "replacement" then .nonceIssue
  else if strIncludes m "reverted" || strIncludes m "execution reverted" then .reverted
  else if strIncludes m "rate limit" || strIncludes m "429" then .rateLimited
  else .unknown

/-- Classification chain of `handleDeposit`'s catch block (part_002 lines
444-469), in source order. -/
def classifyDepositErr (m : String) : WriteErrKind :=
  if strIncludes m "user rejected" || strIncludes m "User denied" then .userRejected
  else if strIncludes m "insufficient funds" || strIncludes m "balance" then .insufficientFunds
  else if strIncludes m "gas" || strIncludes m "Gas" then .gasIssue
  else if strIncludes m "network" || strIncludes m "Network" || strIncludes m "timeout" then .networkIssue
  else if strIncludes m "allowance" || strIncludes m "ERC20: insufficient allowance" then .allowanceIssue
  else if strIncludes m "nonce" || strIncludes m "replacement" then .nonceIssue
  else if strIncludes m "reverted" || strIncludes m "execution reverted" then .reverted
  else if strIncludes m "rate limit" || strIncludes m "429" then .rateLimited
  else if strIncludes m "already deposited" then .alreadyDeposited
  else .unknown

/-- The interpolated insufficient-balance message shared by both handlers
(`depositAmount / BigInt(1e6)` is the USDT display amount). -/
def insufficientBalanceMsg (depositAmount : Nat) : String :=
  "Insufficient USDT balance. You need at least " ++ toString (depositAmount / 1000000)
    ++ " USDT to complete the deposit."

/-- Catch block of `handleApprove` (part_002 lines 365-394): sets the
approval sub-machine to `failed`, then acts on the classified kind; a
user-rejected failure resets to `idle` and publishes nothing. -/
def approveCatch (s : AppState) (m : String) : AppState :=
  let sf := { s with approvalStatus := ApprovalStatus.failed }
  match classifyApproveErr m with
  | .userRejected => { sf with approvalStatus := ApprovalStatus.idle }
  | .insufficientFunds =>
      { sf with error := some "Insufficient USDT balance. Please ensure you have enough USDT in your wallet." }
  | .gasIssue =>
      { sf with error := some "Transaction failed due to gas issues. Try increasing gas limit or gas price in your wallet." }
  | .networkIssue =>
      { sf with error := some "Network error occurred. Please check your connection and try again.",
                networkError := some "Network Error" }
  | .nonceIssue =>
      { sf with error := some "Transaction nonce error. Please reset your wallet account or try again." }
  | .reverted =>
      { sf with error := some "Transaction was reverted by the contract. Please check contract conditions and try again." }
  | .rateLimited =>
      { sf with error := some "Too many requests. Please wait a moment before trying again." }
  | _ =>
      { sf with error := some "Approval transaction failed. Please check your wallet and try again." }

/-- Catch block of `handleDeposit` (part_002 lines 438-473): sets the
deposit sub-machine to `failed`, then acts on the classified kind.  Note the
already-deposited branch (lines 464-466) only sets the error message and
forces `hasDeposited` true: `depositStatus` stays `failed`. -/
def depositCatch (s : AppState) (m : String) : AppState :=
  let sf := { s with depositStatus := DepositStatus.failed }
  match classifyDepositErr m with
  | .userRejected => { sf with depositStatus := DepositStatus.idle }
  | .insufficientFunds =>
      { sf with error := some "Insufficient USDT balance. Please ensure you have enough USDT in your wallet." }
  | .gasIssue =>
      { sf with error := some "Transaction failed due to gas issues. Try increasing gas limit or gas price in your wallet." }
  | .networkIssue =>
      { sf with error := some "Network error occurred. Please check your connection and try again.",
                networkError := some "Network Error" }
  | .allowanceIssue =>
      { sf with error := some "USDT allowance insufficient. Please approve USDT spending again.",
                approvalStatus := ApprovalStatus.idle }
  | .nonceIssue =>
      { sf with error := some "Transaction nonce error. Please reset your wallet account or try again." }
  | .reverted =>
      { sf with error := some "Transaction was reverted by the contract. You may have already deposited or there may be a contract issue." }
  | .rateLimited =>
      { sf with error := some "Too many requests. Please wait a moment before trying again." }
  | .alreadyDeposited =>
      { sf with error := some "You have already made a deposit to this contract.",
                hasDeposited := some true }
  | .unknown =>
      { sf with error := some "Deposit transaction failed. Please check your wallet and try again." }

/-- Environment for one `checkApprovalStatus` run: the outcome of creating
the read-only contract utilities and of the two parallel reads. -/
structure ReadEnv where
  createReadOnly : CallResult Unit
  flatDepositAmount : CallResult Nat
  allowance : CallResult Nat
  deriving DecidableEq, Repr

/-- The `checkApprovalStatus` read (part_002 lines 186-209): reads the
required amount and current allowance, and only when the approval sub-machine
is currently `idle` or `failed` updates it to `approved` (allowance
sufficient) or `idle`; every read failure is swallowed (no state change). -/
def checkApprovalStatus (s : AppState) (env : ReadEnv) : HandlerResult :=
  match env.createReadOnly with
  | .err _ => ⟨s, [LedgerCall.createReadOnlyUtils]⟩
  | .ok _ =>
    let calls := [LedgerCall.createReadOnlyUtils, LedgerCall.getFlatDepositAmount,
      LedgerCall.getUSDTAllowance]
    match env.flatDepositAmount, env.allowance with
    | .ok depositAmount, .ok currentAllowance =>
      if s.approvalStatus = ApprovalStatus.idle ∨ s.approvalStatus = ApprovalStatus.failed then
        ⟨{ s with approvalStatus :=
            if depositAmount ≤ currentAllowance then ApprovalStatus.approved
            else ApprovalStatus.idle }, calls⟩
      else ⟨s, calls⟩
    | _, _ => ⟨s, calls⟩

/-- Environment for one `checkDepositStatus` run: whether the pool address
is configured, the outcomes of the read-only-utils creation and of the
`hasDeposited` read, and the nested approval-check environment. -/
structure PollEnv where
  poolConfigured : Bool
  createReadOnly : CallResult Unit
  hasDepositedRead : CallResult Bool
  approvalEnv : ReadEnv
  deriving DecidableEq, Repr

/-- The error categories distinguished by `checkDepositStatus`'s catch block
(part_002 lines 238-268), first substring match wins. -/
inductive PollErrKind where
  | config
  | network
  | rateLimited
  | chainIssue
  | unknown
  deriving DecidableEq, Repr

/-- Classification chain of `checkDepositStatus`'s catch block, in source
order (note: only lowercase "network" is matched here). -/
def pollErrKind (m : String) : PollErrKind :=
  if strIncludes m "contract address not configured" then .config
  else if strIncludes m "network" || strIncludes m "fetch" || strIncludes m "timeout" then .network
  else if strIncludes m "rate limit" || strIncludes m "429" then .rateLimited
  else if strIncludes m "chain" || strIncludes m "unsupported" then .chainIssue
  else .unknown

/-- Catch block of `checkDepositStatus` (part_002 lines 234-272): publishes
the classified read-error strings, schedules an exponential-backoff retry
for network errors (only when this run is not itself a scheduled retry and
`retryCount < 3`), and finally clears `hasDeposited` to `none` (line 271).
Returns the new state and the scheduled retry delay in ms, if any. -/
def pollCatch (s : AppState) (m : String) (isRetry : Bool) : AppState × Option Nat :=
  let base :=
    match pollErrKind m with
    | .config =>
        ({ s with depositCheckError := some "Contract configuration error. Please check environment variables.",
                  networkError := some "Configuration Error" }, none)
    | .network =>
        let s2 := { s with
          depositCheckError := some "Network connection issue. Please check your internet connection.",
          networkError := some "Network Error" }
        if isRetry = false ∧ s.retryCount < 3 then (s2, some (2 ^ s.retryCount * 1000))
        else (s2, none)
    | .rateLimited =>
        ({ s with depositCheckError := some "Too many requests. Please wait a moment before trying again.",
                  networkError := some "Rate Limited" }, none)
    | .chainIssue =>
        ({ s with depositCheckError := some "Unsupported network. Please ensure you are connected to the correct network.",
                  networkError := some "Network Mismatch" }, none)
    | .unknown =>
        ({ s with depositCheckError := some "Unable to check deposit status. Will retry automatically.",
                  networkError := some "Unknown Error" }, none)
  ({ base.1 with hasDeposited := none }, base.2)

/-- The polling status read `checkDepositStatus` (part_002 lines 212-273):
clears the read-error strings, fails early if the pool address is not
configured, reads `hasDeposited`; on success publishes it, resets the retry
counter and (when not deposited and neither sub-machine is pending) runs the
nested approval check; on any failure runs `pollCatch`. -/
def checkDepositStatus (s : AppState) (env : PollEnv) (isRetry : Bool) : PollResult :=
  let s1 := { s with depositCheckError := none, networkError := none }
  if env.poolConfigured = false then
    let r := pollCatch s1 "Security deposit pool contract address not configured" isRetry
    ⟨r.1, [], r.2⟩
  else
    match env.createReadOnly with
    | .err m =>
        let r := pollCatch s1 m isRetry
        ⟨r.1, [LedgerCall.createReadOnlyUtils], r.2⟩
    | .ok _ =>
      match env.hasDepositedRead with
      | .err m =>
          let r := pollCatch s1 m isRetry
          ⟨r.1, [LedgerCall.createReadOnlyUtils, LedgerCall.hasDepositedRead], r.2⟩
      | .ok deposited =>
        let s2 := { s1 with hasDeposited := some deposited, retryCount := 0 }
        if deposited = false ∧ s2.approvalStatus ≠ ApprovalStatus.pending
            ∧ s2.depositStatus ≠ DepositStatus.pending then
          let r := checkApprovalStatus s2 env.approvalEnv
          ⟨r.state, [LedgerCall.createReadOnlyUtils, LedgerCall.hasDepositedRead] ++ r.calls, none⟩
        else
          ⟨s2, [LedgerCall.createReadOnlyUtils, LedgerCall.hasDepositedRead], none⟩

/-- The message of the failure a `checkDepositStatus` run hits, if any
(`none` when the read succeeds). -/
def pollFailureMsg (env : PollEnv) : Option String :=
  if env.poolConfigured = false then
    some "Security deposit pool contract address not configured"
  else
    match env.createReadOnly with
    | .err m => some m
    | .ok _ =>
      match env.hasDepositedRead with
      | .err m => some m
      | .ok _ => none

/-- Manual retry `retryDepositStatusCheck` (part_002 lines 495-500): only
with an active address, resets the retry counter to 0 and performs an
immediate non-retry status read. -/
def retryDepositStatusCheck (s : AppState) (env : PollEnv) : PollResult :=
  match s.address with
  | none => ⟨s, [], none⟩
  | some _ => checkDepositStatus { s with retryCount := 0 } env false

/-- Firing of the backoff timer scheduled by `checkDepositStatus` (part_002
lines 250-253): increments the retry counter, then reruns the status read
with `isRetry = true`. -/
def fireScheduledRetry (s : AppState) (env : PollEnv) : PollResult :=
  checkDepositStatus { s with retryCount := s.retryCount + 1 } env true

/-- Environment for one `handleApprove` run, in call order; `postCheck` is
the environment of the `checkApprovalStatus` verification performed after a
successful approval. -/
structure ApproveEnv where
  createUtils : CallResult Unit
  flatDepositAmount : CallResult Nat
  balance : CallResult Nat
  approveTx : CallResult Unit
  txWait : CallResult Unit
  postCheck : ReadEnv
  deriving DecidableEq, Repr

/-- The approve handler `handleApprove` (part_002 lines 334-395): no-op
without an address; otherwise sets the approval sub-machine to `pending`,
clears the errors, reads the required amount and the balance, short-circuits
to `failed` with the insufficient-balance message when the balance is short
(without submitting the approve write), otherwise submits the approve and
waits for settlement; on success sets `approved` and re-verifies via
`checkApprovalStatus`; any thrown failure goes through `approveCatch`. -/
def handleApprove (s : AppState) (env : ApproveEnv) : HandlerResult :=
  match s.address with
  | none => ⟨s, []⟩
  | some _ =>
    let s1 := { s with
      approvalStatus := ApprovalStatus.pending, error := none, networkError := none }
    match env.createUtils with
    | .err m => ⟨approveCatch s1 m, [LedgerCall.createUtils]⟩
    | .ok _ =>
      match env.flatDepositAmount with
      | .err m => ⟨approveCatch s1 m, [LedgerCall.createUtils, LedgerCall.getFlatDepositAmount]⟩
      | .ok depositAmount =>
        match env.balance with
        | .err m =>
            ⟨approveCatch s1 m,
              [LedgerCall.createUtils, LedgerCall.getFlatDepositAmount, LedgerCall.getUSDTBalance]⟩
        | .ok userBalance =>
          let readCalls := [LedgerCall.createUtils, LedgerCall.getFlatDepositAmount,
            LedgerCall.getUSDTBalance]
          if userBalance < depositAmount then
            ⟨{ s1 with
                approvalStatus := ApprovalStatus.failed,
                error := some (insufficientBalanceMsg depositAmount) }, readCalls⟩
          else
            match env.approveTx with
            | .err m => ⟨approveCatch s1 m, readCalls ++ [LedgerCall.submitApprove]⟩
            | .ok _ =>
              match env.txWait with
              | .err m =>
                  ⟨approveCatch s1 m, readCalls ++ [LedgerCall.submitApprove, LedgerCall.txWait]⟩
              | .ok _ =>
                let s2 := { s1 with approvalStatus := ApprovalStatus.approved }
                let r := checkApprovalStatus s2 env.postCheck
                ⟨r.state, readCalls ++ [LedgerCall.submitApprove, LedgerCall.txWait] ++ r.calls⟩

/-- The message of the failure a `handleApprove` run hits, if any (the two
short-circuit returns are not thrown failures). -/
def approveFailureMsg (env : ApproveEnv) : Option String :=
  match env.createUtils with
  | .err m => some m
  | .ok _ =>
    match env.flatDepositAmount with
    | .err m => some m
    | .ok depositAmount =>
      match env.balance with
      | .err m => some m
      | .ok userBalance =>
        if userBalance < depositAmount then none
        else
          match env.approveTx with
          | .err m => some m
          | .ok _ =>
            match env.txWait with
            | .err m => some m
            | .ok _ => none

/-- Environment for one `handleDeposit` run, in call order. -/
structure DepositEnv where
  createUtils : CallResult Unit
  flatDepositAmount : CallResult Nat
  allowance : CallResult Nat
  balance : CallResult Nat
  depositTx : CallResult Unit
  txWait : CallResult Unit
  deriving DecidableEq, Repr

/-- The deposit handler `handleDeposit` (part_002 lines 398-474): no-op
without an address or when the approval sub-machine is not `approved`;
otherwise sets the deposit sub-machine to `pending`, clears the errors,
double-checks the allowance (short-circuit to `failed` + approval reset to
`idle` when short) and the balance (short-circuit to `failed`), then submits
the deposit and waits for settlement; on success sets `success` and forces
`hasDeposited` true; any thrown failure goes through `depositCatch`. -/
def handleDeposit (s : AppState) (env : DepositEnv) : HandlerResult :=
  match s.address with
  | none => ⟨s, []⟩
  | some _ =>
    if s.approvalStatus ≠ ApprovalStatus.approved then ⟨s, []⟩
    else
      let s1 := { s with
        depositStatus := DepositStatus.pending, error := none, networkError := none }
      match env.createUtils with
      | .err m => ⟨depositCatch s1 m, [LedgerCall.createUtils]⟩
      | .ok _ =>
        match env.flatDepositAmount with
        | .err m => ⟨depositCatch s1 m, [LedgerCall.createUtils, LedgerCall.getFlatDepositAmount]⟩
        | .ok depositAmount =>
          match env.allowance with
          | .err m =>
              ⟨depositCatch s1 m,
                [LedgerCall.createUtils, LedgerCall.getFlatDepositAmount, LedgerCall.getUSDTAllowance]⟩
          | .ok currentAllowance =>
            let calls3 := [LedgerCall.createUtils, LedgerCall.getFlatDepositAmount,
              LedgerCall.getUSDTAllowance]
            if currentAllowance < depositAmount then
              ⟨{ s1 with
                  depositStatus := DepositStatus.failed,
                  error := some "USDT allowance is insufficient. Please approve USDT spending again.",
                  approvalStatus := ApprovalStatus.idle }, calls3⟩
            else
              match env.balance with
              | .err m => ⟨depositCatch s1 m, calls3 ++ [LedgerCall.getUSDTBalance]⟩
              | .ok userBalance =>
                let calls4 := calls3 ++ [LedgerCall.getUSDTBalance]
                if userBalance < depositAmount then
                  ⟨{ s1 with
                      depositStatus := DepositStatus.failed,
                      error := some (insufficientBalanceMsg depositAmount) }, calls4⟩
                else
                  match env.depositTx with
                  | .err m => ⟨depositCatch s1 m, calls4 ++ [LedgerCall.submitDeposit]⟩
                  | .ok _ =>
                    match env.txWait with
                    | .err m =>
                        ⟨depositCatch s1 m, calls4 ++ [LedgerCall.submitDeposit, LedgerCall.txWait]⟩
                    | .ok _ =>
                      ⟨{ s1 with depositStatus := DepositStatus.success, hasDeposited := some true },
                        calls4 ++ [LedgerCall.submitDeposit, LedgerCall.txWait]⟩

/-- The message of the failure a `handleDeposit` run hits, if any (the two
short-circuit returns are not thrown failures). -/
def depositFailureMsg (env : DepositEnv) : Option String :=
  match env.createUtils with
  | .err m => some m
  | .ok _ =>
    match env.flatDepositAmount with
    | .err m => some m
    | .ok depositAmount =>
      match env.allowance with
      | .err m => some m
      | .ok currentAllowance =>
        if currentAllowance < depositAmount then none
        else
          match env.balance with
          | .err m => some m
          | .ok userBalance =>
            if userBalance < depositAmount then none
            else
              match env.depositTx with
              | .err m => some m
              | .ok _ =>
                match env.txWait with
                | .err m => some m
                | .ok _ => none

/-- The pair of configured contract addresses (`CONTRACT_ADDRESSES` in
contracts.ts; the pool address defaults to the empty string when the
environment variable is absent). -/
structure ContractAddresses where
  securityDepositPool : String
  usdt : String
  deriving DecidableEq, Repr

/-- Character class `[a-fA-F0-9]` of the address validation regex
(97-102 = a-f, 65-70 = A-F, 48-57 = 0-9 as code points). -/
def isHexDigitChar (c : Char) : Bool :=
  (97 ≤ c.toNat && c.toNat ≤ 102) || (65 ≤ c.toNat && c.toNat ≤ 70)
    || (48 ≤ c.toNat && c.toNat ≤ 57)

/-- The address format test `^0x[a-fA-F0-9]{40}$` of contracts.ts line 31. -/
def isAddressFormat (s : String) : Bool :=
  match s.data with
  | '0' :: 'x' :: rest => rest.length == 40 && rest.all isHexDigitChar
  | _ => false

/-- The startup validation `validateContractAddresses` (contracts.ts lines
17-39): rejects an empty pool address, an empty USDT address, and either
address failing the format check, in that order. -/
def validateContractAddresses (a : ContractAddresses) : Except String Unit :=
  if a.securityDepositPool = "" then
    Except.error "NEXT_PUBLIC_SECURITY_DEPOSIT_POOL_ADDRESS environment variable is required"
  else if a.usdt = "" then
    Except.error "NEXT_PUBLIC_USDT_ADDRESS environment variable is required"
  else if isAddressFormat a.securityDepositPool = false then
    Except.error "Invalid Security Deposit Pool contract address format"
  else if isAddressFormat a.usdt = false then
    Except.error "Invalid USDT contract address format"
  else Except.ok ()

/-- A connected SecurityDepositPool contract instance (the result of
`SecurityDepositPool__factory.connect`). -/
structure PoolContract where
  address : String
  deriving DecidableEq, Repr

/-- A connected ERC20 (USDT) contract instance. -/
structure ERC20Contract where
  address : String
  deriving DecidableEq, Repr

/-- `getSecurityDepositPoolContract` (contracts.ts lines 55-68): throws when
the pool address is unset, otherwise connects the contract instance. -/
def getSecurityDepositPoolContract (a : ContractAddresses) : Except String PoolContract :=
  if a.securityDepositPool = "" then
    Except.error "Security Deposit Pool contract address not configured. Please set NEXT_PUBLIC_SECURITY_DEPOSIT_POOL_ADDRESS environment variable."
  else Except.ok ⟨a.securityDepositPool⟩

/-- `getUSDTContract` (contracts.ts lines 75-77): connects unconditionally. -/
def getUSDTContract (a : ContractAddresses) : ERC20Contract :=
  ⟨a.usdt⟩

/-- The two contract instances held by a `SecurityDepositPoolUtils` object. -/
structure SecurityDepositPoolUtilsInst where
  contract : PoolContract
  usdtContract : ERC20Contract
  deriving DecidableEq, Repr

/-- The `SecurityDepositPoolUtils` constructor (contracts.ts lines 106-112):
validates the configured addresses before creating any contract instance,
then connects the pool and USDT contracts. -/
def mkSecurityDepositPoolUtils (a : ContractAddresses) :
    Except String SecurityDepositPoolUtilsInst :=
  match validateContractAddresses a with
  | .error e => .error e
  | .ok _ =>
    match getSecurityDepositPoolContract a with
    | .error e => .error e
    | .ok c => .ok ⟨c, getUSDTContract a⟩

/-- Whether an `Except` carries a success value. -/
def exceptIsOk {ε α : Type} : Except ε α → Bool
  | .ok _ => true
  | .error _ => false

/-- A `handleApprove` run that hits a thrown failure ends in the state
produced by its catch block applied to the post-reset pending state. -/
lemma handleApprove_failure (s : AppState) (env : ApproveEnv) (a m : String)
    (ha : s.address = some a) (hm : approveFailureMsg env = some m) :
    (handleApprove s env).state =
      approveCatch { s with
        approvalStatus := ApprovalStatus.pending, error := none, networkError := none } m := by
  obtain ⟨cu, fd, bl, atx, tw, pc⟩ := env
  cases cu <;> cases fd <;> cases bl <;> cases atx <;> cases tw <;>
      simp_all [handleApprove, approveFailureMsg] <;>
      split_ifs at hm ⊢ <;> simp_all
  all_goals omega

/-- A `handleDeposit` run that hits a thrown failure ends in the state
produced by its catch block applied to the post-reset pending state. -/
lemma handleDeposit_failure (s : AppState) (env : DepositEnv) (a m : String)
    (ha : s.address = some a) (hap : s.approvalStatus = ApprovalStatus.approved)
    (hm : depositFailureMsg env = some m) :
    (handleDeposit s env).state =
      depositCatch { s with
        depositStatus := DepositStatus.pending, error := none, networkError := none } m := by
  obtain ⟨cu, fd, alw, bl, dtx, tw⟩ := env
  cases cu <;> cases fd <;> cases alw <;> cases bl <;> cases dtx <;> cases tw <;>
      simp_all [handleDeposit, depositFailureMsg] <;>
      split_ifs at hm ⊢ <;> simp_all
  all_goals omega

/-- A `checkDepositStatus` run that hits a failure produces the state and
the scheduled delay of its catch block applied to the error-cleared state. -/
lemma checkDepositStatus_failure (s : AppState) (env : PollEnv) (b : Bool) (m : String)
    (hm : pollFailureMsg env = some m) :
    (checkDepositStatus s env b).state =
      (pollCatch { s with depositCheckError := none, networkError := none } m b).1 ∧
    (checkDepositStatus s env b).scheduledDelay =
      (pollCatch { s with depositCheckError := none, networkError := none } m b).2 := by
  obtain ⟨pc, cro, hdr, aenv⟩ := env
  cases pc <;> cases cro <;> cases hdr <;>
    simp_all [checkDepositStatus, pollFailureMsg]

/-- The polling catch block never touches either sub-machine state and
never touches the retry counter. -/
lemma pollCatch_preserves (s : AppState) (m : String) (b : Bool) :
    (pollCatch s m b).1.approvalStatus = s.approvalStatus ∧
    (pollCatch s m b).1.depositStatus = s.depositStatus ∧
    (pollCatch s m b).1.retryCount = s.retryCount := by
  unfold pollCatch
  cases pollErrKind m <;> (try split_ifs) <;> simp

/-- The polling catch block always publishes both read-error strings and
clears the has-committed flag. -/
lemma pollCatch_publishes (s : AppState) (m : String) (b : Bool) :
    (pollCatch s m b).1.hasDeposited = none ∧
    (pollCatch s m b).1.depositCheckError ≠ none ∧
    (pollCatch s m b).1.networkError ≠ none := by
  unfold pollCatch
  cases pollErrKind m <;> (try split_ifs) <;> simp

/-- A delay is scheduled by the polling catch block only for a
network-classified failure of a non-retry run below the attempt ceiling,
and it is exactly the exponential backoff of the current attempt count. -/
lemma pollCatch_delay (s : AppState) (m : String) (b : Bool) (d : Nat)
    (h : (pollCatch s m b).2 = some d) :
    d = 2 ^ s.retryCount * 1000 ∧ s.retryCount < 3 ∧ b = false := by
  unfold pollCatch at h
  cases hk : pollErrKind m <;> rw [hk] at h
  · simp at h
  · simp only at h
    split_ifs at h with hc
    simp at h
    exact ⟨h.symm, hc.2, hc.1⟩
  · simp at h
  · simp at h
  · simp at h

/-- On a network-classified failure of a non-retry run below the attempt
ceiling, the polling catch block does schedule the backoff delay. -/
lemma pollCatch_delay_network (s : AppState) (m : String)
    (hnet : pollErrKind m = PollErrKind.network) (hlt : s.retryCount < 3) :
    (pollCatch s m false).2 = some (2 ^ s.retryCount * 1000) := by
  unfold pollCatch
  rw [hnet]
  simp [hlt]

/-- The approval reconciliation read never touches the deposit sub-machine,
and never touches the approval sub-machine unless it is `idle` or `failed`. -/
lemma checkApprovalStatus_preserves (s : AppState) (env : ReadEnv) :
    (checkApprovalStatus s env).state.depositStatus = s.depositStatus ∧
    ((s.approvalStatus = ApprovalStatus.pending ∨ s.approvalStatus = ApprovalStatus.approved) →
      (checkApprovalStatus s env).state.approvalStatus = s.approvalStatus) := by
  obtain ⟨cro, fd, alw⟩ := env
  cases cro with
  | err m => simp [checkApprovalStatus]
  | ok u =>
    cases fd with
    | err m => cases alw <;> simp [checkApprovalStatus]
    | ok amt =>
      cases alw with
      | err m => simp [checkApprovalStatus]
      | ok cur =>
        refine ⟨?_, ?_⟩
        · simp only [checkApprovalStatus]
          split_ifs <;> simp
        · intro h
          simp only [checkApprovalStatus]
          have hg : ¬(s.approvalStatus = ApprovalStatus.idle
              ∨ s.approvalStatus = ApprovalStatus.failed) := by
            rcases h with h | h <;> rw [h] <;> simp
          rw [if_neg hg]

/-- Sample fixtures used by the concrete witnesses and counterexamples. -/
def baseState : AppState :=
  { address := some "0x1111111111111111111111111111111111111111",
    approvalStatus := ApprovalStatus.idle, depositStatus := DepositStatus.idle,
    hasDeposited := some false, depositCheckError := none, networkError := none,
    error := none, retryCount := 0 }

/-- Sample state whose approval sub-machine has reached `approved`. -/
def approvedState : AppState :=
  { baseState with approvalStatus := ApprovalStatus.approved }

/-- Sample state with no connected wallet. -/
def disconnectedState : AppState :=
  { baseState with address := none }

/-- Sample state whose last successful read published `hasDeposited = true`. -/
def knownDepositedState : AppState :=
  { baseState with hasDeposited := some true }

/-- Sample state with an approval write in flight and a successful deposit. -/
def pendingSuccessState : AppState :=
  { baseState with approvalStatus := ApprovalStatus.pending,
                   depositStatus := DepositStatus.success }

/-- Read environment in which every read succeeds. -/
def okReadEnv : ReadEnv :=
  { createReadOnly := .ok (), flatDepositAmount := .ok 150, allowance := .ok 150 }

/-- Approve environment whose balance read returns 100 against a required 150. -/
def lowBalanceApproveEnv : ApproveEnv :=
  { createUtils := .ok (), flatDepositAmount := .ok 150, balance := .ok 100,
    approveTx := .ok (), txWait := .ok (), postCheck := okReadEnv }

/-- Approve environment whose submitted write fails with a user rejection. -/
def userRejectedApproveEnv : ApproveEnv :=
  { lowBalanceApproveEnv with balance := .ok 150,
                              approveTx := .err "user rejected transaction" }

/-- Deposit environment in which every call succeeds. -/
def okDepositEnv : DepositEnv :=
  { createUtils := .ok (), flatDepositAmount := .ok 150, allowance := .ok 150,
    balance := .ok 150, depositTx := .ok (), txWait := .ok () }

/-- Deposit environment whose submitted write fails with "already deposited". -/
def alreadyDepositedEnv : DepositEnv :=
  { okDepositEnv with depositTx := .err "already deposited" }

/-- Deposit environment whose submitted write fails with a user rejection. -/
def userRejectedDepositEnv : DepositEnv :=
  { okDepositEnv with depositTx := .err "user rejected transaction" }

/-- Deposit environment whose settled write reports an allowance failure. -/
def allowanceFailDepositEnv : DepositEnv :=
  { okDepositEnv with depositTx := .err "ERC20: insufficient allowance" }

/-- Deposit environment whose allowance read returns 100 against a required 150. -/
def shortAllowanceDepositEnv : DepositEnv :=
  { okDepositEnv with allowance := .ok 100 }

/-- Poll environment whose status read fails with a network-classified message. -/
def failingNetworkPollEnv : PollEnv :=
  { poolConfigured := true, createReadOnly := .ok (), hasDepositedRead := .err "network glitch",
    approvalEnv := okReadEnv }

/-- Poll environment whose status read fails with an unclassified message. -/
def failingPollEnv : PollEnv :=
  { failingNetworkPollEnv with hasDepositedRead := .err "boom" }

/-- Poll environment in which every read succeeds with `hasDeposited = false`. -/
def okPollEnv : PollEnv :=
  { poolConfigured := true, createReadOnly := .ok (), hasDepositedRead := .ok false,
    approvalEnv := okReadEnv }

/-- A string passing the address format check is nonempty. -/
lemma isAddressFormat_ne_empty (s : String) (h : isAddressFormat s = true) : s ≠ "" := by
  intro he
  subst he
  simp [isAddressFormat] at h

/-- C5: a `deposit()` invocation while the approval sub-machine is in any
state other than `approved` is a no-op: the whole component state (in
particular `depositStatus` and the error record) is unchanged and no
ledger-client call is issued. -/
theorem deposit_noop_when_not_approved (s : AppState) (env : DepositEnv)
    (h : s.approvalStatus ≠ ApprovalStatus.approved) :
    handleDeposit s env = ⟨s, []⟩ := by
  cases ha : s.address with
  | none => simp [handleDeposit, ha]
  | some a => simp [handleDeposit, ha, h]

/-- Witness for C5 at a concrete idle state and an all-success environment. -/
theorem deposit_noop_when_not_approved_witness :
    handleDeposit baseState okDepositEnv = ⟨baseState, []⟩ :=
  deposit_noop_when_not_approved baseState okDepositEnv (by decide)

/-- C10: an `approve()` or `deposit()` invocation with no active identity is
a complete no-op: both sub-machine states, the error record and the
published has-committed flag are unchanged, and no ledger-client call is
issued. -/
theorem handlers_noop_without_identity (s : AppState) (aenv : ApproveEnv) (denv : DepositEnv)
    (h : s.address = none) :
    handleApprove s aenv = ⟨s, []⟩ ∧ handleDeposit s denv = ⟨s, []⟩ := by
  constructor
  · simp [handleApprove, h]
  · simp [handleDeposit, h]

/-- Witness for C10 at a concrete disconnected state. -/
theorem handlers_noop_without_identity_witness :
    handleApprove disconnectedState lowBalanceApproveEnv = ⟨disconnectedState, []⟩ ∧
    handleDeposit disconnectedState okDepositEnv = ⟨disconnectedState, []⟩ :=
  handlers_noop_without_identity disconnectedState lowBalanceApproveEnv okDepositEnv (by decide)

/-- C9: constructing the contract utilities succeeds exactly when both
configured addresses pass the `^0x[a-fA-F0-9]{40}$` format check, and throws
(creating no instances, since the `Except` is an error) exactly when the
pool address is empty or either address fails the check. -/
theorem utils_construction_validates_addresses (a : ContractAddresses) :
    (exceptIsOk (mkSecurityDepositPoolUtils a) = true ↔
      (isAddressFormat a.securityDepositPool = true ∧ isAddressFormat a.usdt = true)) ∧
    (exceptIsOk (mkSecurityDepositPoolUtils a) = false ↔
      (a.securityDepositPool = "" ∨ isAddressFormat a.securityDepositPool = false ∨
        isAddressFormat a.usdt = false)) := by
  obtain ⟨p, u⟩ := a
  by_cases hp : p = ""
  · subst hp
    simp [mkSecurityDepositPoolUtils, validateContractAddresses, exceptIsOk,
      isAddressFormat]
  · by_cases hu : u = ""
    · subst hu
      simp [mkSecurityDepositPoolUtils, validateContractAddresses, exceptIsOk, hp,
        isAddressFormat]
    · by_cases hfp : isAddressFormat p = true
      · by_cases hfu : isAddressFormat u = true
        · simp [mkSecurityDepositPoolUtils, validateContractAddresses,
            getSecurityDepositPoolContract, exceptIsOk, hp, hu, hfp, hfu]
        · simp only [Bool.not_eq_true] at hfu
          simp [mkSecurityDepositPoolUtils, validateContractAddresses, exceptIsOk,
            hp, hu, hfp, hfu]
      · simp only [Bool.not_eq_true] at hfp
        simp [mkSecurityDepositPoolUtils, validateContractAddresses, exceptIsOk,
          hp, hu, hfp]

/-- C1 counterexample: a deposit whose submitted write fails with a message
containing "already deposited" does NOT end with `DepositState = Success`
and DOES publish an error record: at this concrete input the handler ends
`failed` with the already-deposited error message (only the has-committed
flag is forced true). -/
theorem already_deposited_not_success :
    (handleDeposit approvedState alreadyDepositedEnv).state.depositStatus ≠
      DepositStatus.success ∧
    (handleDeposit approvedState alreadyDepositedEnv).state.depositStatus =
      DepositStatus.failed ∧
    (handleDeposit approvedState alreadyDepositedEnv).state.error =
      some "You have already made a deposit to this contract." ∧
    (handleDeposit approvedState alreadyDepositedEnv).state.hasDeposited = some true := by
  decide

/-- C1 amended: for every deposit invocation whose submitted write fails
with a failure classified as already-deposited, the handler ends with
`DepositState = Failed` (not `Success`), the has-committed flag forced true,
and the already-deposited error record published. -/
theorem already_deposited_sets_flag_only (s : AppState) (env : DepositEnv) (a m : String)
    (ha : s.address = some a) (hap : s.approvalStatus = ApprovalStatus.approved)
    (hm : depositFailureMsg env = some m)
    (hc : classifyDepositErr m = WriteErrKind.alreadyDeposited) :
    (handleDeposit s env).state.depositStatus = DepositStatus.failed ∧
    (handleDeposit s env).state.hasDeposited = some true ∧
    (handleDeposit s env).state.error =
      some "You have already made a deposit to this contract." := by
  rw [handleDeposit_failure s env a m ha hap hm]
  simp [depositCatch, hc]

/-- Witness for the amended C1 at the concrete already-deposited run. -/
theorem already_deposited_sets_flag_only_witness :
    (handleDeposit approvedState alreadyDepositedEnv).state.depositStatus =
      DepositStatus.failed ∧
    (handleDeposit approvedState alreadyDepositedEnv).state.hasDeposited = some true ∧
    (handleDeposit approvedState alreadyDepositedEnv).state.error =
      some "You have already made a deposit to this contract." :=
  already_deposited_sets_flag_only approvedState alreadyDepositedEnv
    "0x1111111111111111111111111111111111111111" "already deposited"
    (by decide) (by decide) (by decide) (by decide)

/-- C2 counterexample: the balance short-circuit of `approve()` does NOT
make zero ledger-client calls: at balance 100 against required 150 it ends
`Failed` with the insufficient-balance error but has issued the
deposit-amount and balance reads. -/
theorem approve_short_circuit_makes_reads :
    (handleApprove baseState lowBalanceApproveEnv).state.approvalStatus =
      ApprovalStatus.failed ∧
    (handleApprove baseState lowBalanceApproveEnv).state.error =
      some (insufficientBalanceMsg 150) ∧
    (handleApprove baseState lowBalanceApproveEnv).calls ≠ [] := by
  decide

/-- C2 amended: when the owner balance read comes back below the required
amount, `approve()` ends `Failed` with the insufficient-balance error and
submits no write (the calls are exactly the utils creation and the two
reads; no approve submission occurs). -/
theorem approve_short_circuit_no_write (s : AppState) (env : ApproveEnv)
    (a : String) (amount bal : Nat)
    (ha : s.address = some a) (hcu : env.createUtils = CallResult.ok ())
    (hfd : env.flatDepositAmount = CallResult.ok amount)
    (hbal : env.balance = CallResult.ok bal) (hlt : bal < amount) :
    (handleApprove s env).state.approvalStatus = ApprovalStatus.failed ∧
    (handleApprove s env).state.error = some (insufficientBalanceMsg amount) ∧
    (handleApprove s env).calls =
      [LedgerCall.createUtils, LedgerCall.getFlatDepositAmount, LedgerCall.getUSDTBalance] ∧
    LedgerCall.submitApprove ∉ (handleApprove s env).calls := by
  simp [handleApprove, ha, hcu, hfd, hbal, hlt]

/-- Witness for the amended C2 at the concrete low-balance run. -/
theorem approve_short_circuit_no_write_witness :
    (handleApprove baseState lowBalanceApproveEnv).state.approvalStatus =
      ApprovalStatus.failed ∧
    (handleApprove baseState lowBalanceApproveEnv).state.error =
      some (insufficientBalanceMsg 150) ∧
    (handleApprove baseState lowBalanceApproveEnv).calls =
      [LedgerCall.createUtils, LedgerCall.getFlatDepositAmount, LedgerCall.getUSDTBalance] ∧
    LedgerCall.submitApprove ∉ (handleApprove baseState lowBalanceApproveEnv).calls :=
  approve_short_circuit_no_write baseState lowBalanceApproveEnv
    "0x1111111111111111111111111111111111111111" 150 100
    (by decide) (by decide) (by decide) (by decide) (by decide)

/-- C3 counterexample: a failed status read does NOT leave the previously
published has-committed value unchanged: starting from a known
`hasDeposited = some true`, the failing read clears it to `none` while
publishing the read error. -/
theorem poll_failure_clears_known_fact :
    (checkDepositStatus knownDepositedState failingPollEnv false).state.hasDeposited ≠
      knownDepositedState.hasDeposited ∧
    (checkDepositStatus knownDepositedState failingPollEnv false).state.hasDeposited = none ∧
    (checkDepositStatus knownDepositedState failingPollEnv false).state.depositCheckError ≠
      none := by
  decide

/-- C3 amended: every failing status read publishes the read-error records
and clears the published has-committed flag to `none` (unknown), discarding
any previously known value. -/
theorem poll_failure_publishes_and_clears (s : AppState) (env : PollEnv) (b : Bool)
    (m : String) (hm : pollFailureMsg env = some m) :
    (checkDepositStatus s env b).state.hasDeposited = none ∧
    (checkDepositStatus s env b).state.depositCheckError ≠ none ∧
    (checkDepositStatus s env b).state.networkError ≠ none := by
  obtain ⟨h1, -⟩ := checkDepositStatus_failure s env b m hm
  rw [h1]
  exact pollCatch_publishes _ m b

/-- Witness for the amended C3 at the concrete failing read. -/
theorem poll_failure_publishes_and_clears_witness :
    (checkDepositStatus knownDepositedState failingPollEnv false).state.hasDeposited = none ∧
    (checkDepositStatus knownDepositedState failingPollEnv false).state.depositCheckError ≠
      none ∧
    (checkDepositStatus knownDepositedState failingPollEnv false).state.networkError ≠ none :=
  poll_failure_publishes_and_clears knownDepositedState failingPollEnv false "boom" (by decide)

/-- Reduced shape of a `checkDepositStatus` run whose read succeeds. -/
lemma checkDepositStatus_success_eq (s : AppState) (u : Unit) (dep : Bool)
    (aenv : ReadEnv) (b : Bool) :
    checkDepositStatus s ⟨true, CallResult.ok u, CallResult.ok dep, aenv⟩ b =
      (let s2 : AppState := { s with
        depositCheckError := none, networkError := none,
        hasDeposited := some dep, retryCount := 0 }
       if dep = false ∧ s.approvalStatus ≠ ApprovalStatus.pending
           ∧ s.depositStatus ≠ DepositStatus.pending then
         ⟨(checkApprovalStatus s2 aenv).state,
          [LedgerCall.createReadOnlyUtils, LedgerCall.hasDepositedRead]
            ++ (checkApprovalStatus s2 aenv).calls, none⟩
       else ⟨s2, [LedgerCall.createReadOnlyUtils, LedgerCall.hasDepositedRead], none⟩) := by
  rfl

/-- The approval reconciliation read never touches the retry counter. -/
lemma checkApprovalStatus_retryCount (s : AppState) (env : ReadEnv) :
    (checkApprovalStatus s env).state.retryCount = s.retryCount := by
  obtain ⟨cro, fd, alw⟩ := env
  cases cro <;> cases fd <;> cases alw <;>
    (simp only [checkApprovalStatus]; try (split_ifs <;> simp))

/-- A `checkDepositStatus` run whose read succeeds schedules no retry. -/
lemma checkDepositStatus_success_none (s : AppState) (env : PollEnv) (b : Bool)
    (hm : pollFailureMsg env = none) :
    (checkDepositStatus s env b).scheduledDelay = none := by
  obtain ⟨pc, cro, hdr, aenv⟩ := env
  cases pc <;> cases cro <;> cases hdr <;> simp_all [pollFailureMsg]
  rw [checkDepositStatus_success_eq]
  split_ifs <;> rfl

/-- Any scheduled automatic retry comes from a non-retry run below the
attempt ceiling, with exactly the exponential backoff of the current
attempt count. -/
lemma checkDepositStatus_delay (s : AppState) (env : PollEnv) (b : Bool) (d : Nat)
    (h : (checkDepositStatus s env b).scheduledDelay = some d) :
    d = 2 ^ s.retryCount * 1000 ∧ s.retryCount < 3 ∧ b = false := by
  rcases hm : pollFailureMsg env with - | m
  · rw [checkDepositStatus_success_none s env b hm] at h
    cases h
  · rw [(checkDepositStatus_failure s env b m hm).2] at h
    exact pollCatch_delay _ m b d h

/-- A `checkDepositStatus` run either resets the retry counter (successful
read) or leaves it unchanged (failed read). -/
lemma checkDepositStatus_retryCount (s : AppState) (env : PollEnv) (b : Bool) :
    (checkDepositStatus s env b).state.retryCount = 0 ∨
    (checkDepositStatus s env b).state.retryCount = s.retryCount := by
  rcases hm : pollFailureMsg env with - | m
  · left
    obtain ⟨pc, cro, hdr, aenv⟩ := env
    cases pc <;> cases cro <;> cases hdr <;> simp_all [pollFailureMsg]
    rw [checkDepositStatus_success_eq]
    split_ifs
    · simpa using checkApprovalStatus_retryCount _ aenv
    · rfl
  · right
    rw [(checkDepositStatus_failure s env b m hm).1]
    exact (pollCatch_preserves _ m b).2.2

/-- A `checkDepositStatus` run never changes the deposit sub-machine state,
and never changes the approval sub-machine state while either sub-machine is
pending. -/
lemma checkDepositStatus_preserves (s : AppState) (env : PollEnv) (b : Bool) :
    (checkDepositStatus s env b).state.depositStatus = s.depositStatus ∧
    ((s.approvalStatus = ApprovalStatus.pending ∨ s.depositStatus = DepositStatus.pending) →
      (checkDepositStatus s env b).state.approvalStatus = s.approvalStatus) := by
  rcases hm : pollFailureMsg env with - | m
  · obtain ⟨pc, cro, hdr, aenv⟩ := env
    cases pc <;> cases cro <;> cases hdr <;> simp_all [pollFailureMsg]
    rw [checkDepositStatus_success_eq]
    split_ifs with hg
    · refine ⟨?_, ?_⟩
      · simpa using (checkApprovalStatus_preserves _ aenv).1
      · intro hp
        exfalso
        rcases hp with hp | hp
        · exact hg.2.1 (by simpa using hp)
        · exact hg.2.2 (by simpa using hp)
    · exact ⟨rfl, fun _ => rfl⟩
  · obtain ⟨h1, -⟩ := checkDepositStatus_failure s env b m hm
    rw [h1]
    obtain ⟨p1, p2, -⟩ := pollCatch_preserves
      { s with depositCheckError := none, networkError := none } m b
    exact ⟨p2, fun _ => p1⟩

/-- C4: no reconciliation read changes the deposit sub-machine state at all
(hence `Success` is preserved), no reconciliation read changes the approval
sub-machine state while either sub-machine is pending, and the direct
approval read also never changes an approval state that is `pending` or
`approved`. -/
theorem reconciliation_preserves_write_states (s : AppState) (env : PollEnv) (b : Bool)
    (renv : ReadEnv) :
    (checkDepositStatus s env b).state.depositStatus = s.depositStatus ∧
    ((s.approvalStatus = ApprovalStatus.pending ∨ s.depositStatus = DepositStatus.pending) →
      (checkDepositStatus s env b).state.approvalStatus = s.approvalStatus) ∧
    (s.depositStatus = DepositStatus.success →
      (checkDepositStatus s env b).state.depositStatus = DepositStatus.success) ∧
    ((s.approvalStatus = ApprovalStatus.pending ∨ s.approvalStatus = ApprovalStatus.approved) →
      (checkApprovalStatus s renv).state.approvalStatus = s.approvalStatus) := by
  obtain ⟨h1, h2⟩ := checkDepositStatus_preserves s env b
  exact ⟨h1, h2, fun hs => h1.trans hs, (checkApprovalStatus_preserves s renv).2⟩

/-- Witness for C4 at a concrete state with an approval write in flight and
a successful deposit, under a successful reconciliation read. -/
theorem reconciliation_preserves_write_states_witness :
    (checkDepositStatus pendingSuccessState okPollEnv false).state.depositStatus =
      pendingSuccessState.depositStatus ∧
    (checkDepositStatus pendingSuccessState okPollEnv false).state.approvalStatus =
      pendingSuccessState.approvalStatus ∧
    (checkDepositStatus pendingSuccessState okPollEnv false).state.depositStatus =
      DepositStatus.success ∧
    (checkApprovalStatus pendingSuccessState okReadEnv).state.approvalStatus =
      pendingSuccessState.approvalStatus := by
  have h := reconciliation_preserves_write_states pendingSuccessState okPollEnv false okReadEnv
  exact ⟨h.1, h.2.1 (Or.inl (by decide)), h.2.2.1 (by decide), h.2.2.2 (Or.inl (by decide))⟩

/-- C6: a failure of the submitted approve or deposit write classified as
user-rejected returns the corresponding sub-machine to `Idle` and leaves no
error record published. -/
theorem user_rejected_silent_idle (s : AppState) (aenv : ApproveEnv) (denv : DepositEnv)
    (a m m' : String) :
    ((s.address = some a ∧ approveFailureMsg aenv = some m ∧
        classifyApproveErr m = WriteErrKind.userRejected) →
      (handleApprove s aenv).state.approvalStatus = ApprovalStatus.idle ∧
      (handleApprove s aenv).state.error = none) ∧
    ((s.address = some a ∧ s.approvalStatus = ApprovalStatus.approved ∧
        depositFailureMsg denv = some m' ∧
        classifyDepositErr m' = WriteErrKind.userRejected) →
      (handleDeposit s denv).state.depositStatus = DepositStatus.idle ∧
      (handleDeposit s denv).state.error = none) := by
  constructor
  · rintro ⟨ha, hm, hc⟩
    rw [handleApprove_failure s aenv a m ha hm]
    simp [approveCatch, hc]
  · rintro ⟨ha, hap, hm, hc⟩
    rw [handleDeposit_failure s denv a m' ha hap hm]
    simp [depositCatch, hc]

/-- Witness for C6 at concrete user-rejected approve and deposit runs. -/
theorem user_rejected_silent_idle_witness :
    ((handleApprove baseState userRejectedApproveEnv).state.approvalStatus =
        ApprovalStatus.idle ∧
      (handleApprove baseState userRejectedApproveEnv).state.error = none) ∧
    ((handleDeposit approvedState userRejectedDepositEnv).state.depositStatus =
        DepositStatus.idle ∧
      (handleDeposit approvedState userRejectedDepositEnv).state.error = none) := by
  constructor
  · exact (user_rejected_silent_idle baseState userRejectedApproveEnv userRejectedDepositEnv
      "0x1111111111111111111111111111111111111111" "user rejected transaction"
      "user rejected transaction").1 ⟨by decide, by decide, by decide⟩
  · exact (user_rejected_silent_idle approvedState userRejectedApproveEnv userRejectedDepositEnv
      "0x1111111111111111111111111111111111111111" "user rejected transaction"
      "user rejected transaction").2 ⟨by decide, by decide, by decide, by decide⟩

/-- C7: a deposit failing on insufficient allowance, whether caught by the
pre-submission allowance double-check (first implication, with no deposit
write submitted) or reported by the settled write (second implication), ends
with `DepositState = Failed`, the approval sub-machine reset to `Idle`, and
the allowance error record published. -/
theorem deposit_insufficient_allowance_resets_approval (s : AppState) (env : DepositEnv)
    (a m : String) (amount alw : Nat) :
    ((s.address = some a ∧ s.approvalStatus = ApprovalStatus.approved ∧
        env.createUtils = CallResult.ok () ∧ env.flatDepositAmount = CallResult.ok amount ∧
        env.allowance = CallResult.ok alw ∧ alw < amount) →
      (handleDeposit s env).state.depositStatus = DepositStatus.failed ∧
      (handleDeposit s env).state.approvalStatus = ApprovalStatus.idle ∧
      (handleDeposit s env).state.error =
        some "USDT allowance is insufficient. Please approve USDT spending again." ∧
      LedgerCall.submitDeposit ∉ (handleDeposit s env).calls) ∧
    ((s.address = some a ∧ s.approvalStatus = ApprovalStatus.approved ∧
        depositFailureMsg env = some m ∧
        classifyDepositErr m = WriteErrKind.allowanceIssue) →
      (handleDeposit s env).state.depositStatus = DepositStatus.failed ∧
      (handleDeposit s env).state.approvalStatus = ApprovalStatus.idle ∧
      (handleDeposit s env).state.error =
        some "USDT allowance insufficient. Please approve USDT spending again.") := by
  constructor
  · rintro ⟨ha, hap, hcu, hfd, halw, hlt⟩
    simp [handleDeposit, ha, hap, hcu, hfd, halw, hlt]
  · rintro ⟨ha, hap, hm, hc⟩
    rw [handleDeposit_failure s env a m ha hap hm]
    simp [depositCatch, hc]

/-- Witness for C7 at a concrete short-allowance double-check run and a
concrete settled allowance failure. -/
theorem deposit_insufficient_allowance_resets_approval_witness :
    ((handleDeposit approvedState shortAllowanceDepositEnv).state.depositStatus =
        DepositStatus.failed ∧
      (handleDeposit approvedState shortAllowanceDepositEnv).state.approvalStatus =
        ApprovalStatus.idle ∧
      (handleDeposit approvedState shortAllowanceDepositEnv).state.error =
        some "USDT allowance is insufficient. Please approve USDT spending again." ∧
      LedgerCall.submitDeposit ∉ (handleDeposit approvedState shortAllowanceDepositEnv).calls) ∧
    ((handleDeposit approvedState allowanceFailDepositEnv).state.depositStatus =
        DepositStatus.failed ∧
      (handleDeposit approvedState allowanceFailDepositEnv).state.approvalStatus =
        ApprovalStatus.idle ∧
      (handleDeposit approvedState allowanceFailDepositEnv).state.error =
        some "USDT allowance insufficient. Please approve USDT spending again.") := by
  constructor
  · exact (deposit_insufficient_allowance_resets_approval approvedState
      shortAllowanceDepositEnv "0x1111111111111111111111111111111111111111" "" 150 100).1
      ⟨by decide, by decide, by decide, by decide, by decide, by decide⟩
  · exact (deposit_insufficient_allowance_resets_approval approvedState
      allowanceFailDepositEnv "0x1111111111111111111111111111111111111111"
      "ERC20: insufficient allowance" 150 150).2 ⟨by decide, by decide, by decide, by decide⟩

/-- C8: the automatic retry machinery of the status read: any scheduled
retry carries delay `2 ^ attempt * 1000` ms and only arises from a non-retry
run with attempt count below 3; a network-classified failure of a non-retry
run below the ceiling does schedule that delay; at attempt count 3 or more
no retry is scheduled; an invocation never increases the counter (it resets
it or leaves it); a fired retry (which increments the counter) keeps it at
most 3; and the manual retry resets the counter to 0 before reading. -/
theorem network_backoff_retry_policy (s : AppState) (env : PollEnv) (b : Bool) (d : Nat)
    (m a : String) :
    ((checkDepositStatus s env b).scheduledDelay = some d →
      d = 2 ^ s.retryCount * 1000 ∧ s.retryCount < 3 ∧ b = false) ∧
    ((pollFailureMsg env = some m ∧ pollErrKind m = PollErrKind.network ∧ s.retryCount < 3) →
      (checkDepositStatus s env false).scheduledDelay = some (2 ^ s.retryCount * 1000)) ∧
    (3 ≤ s.retryCount → (checkDepositStatus s env b).scheduledDelay = none) ∧
    ((checkDepositStatus s env b).state.retryCount = 0 ∨
      (checkDepositStatus s env b).state.retryCount = s.retryCount) ∧
    (s.retryCount < 3 → (fireScheduledRetry s env).state.retryCount ≤ 3) ∧
    (s.address = some a →
      retryDepositStatusCheck s env = checkDepositStatus { s with retryCount := 0 } env false) := by
  refine ⟨checkDepositStatus_delay s env b d, ?_, ?_, checkDepositStatus_retryCount s env b,
    ?_, ?_⟩
  · rintro ⟨hm, hnet, hlt⟩
    rw [(checkDepositStatus_failure s env false m hm).2]
    exact pollCatch_delay_network _ m hnet hlt
  · intro h3
    rcases hd : (checkDepositStatus s env b).scheduledDelay with - | d'
    · rfl
    · obtain ⟨-, hlt, -⟩ := checkDepositStatus_delay s env b d' hd
      omega
  · intro hlt
    have h := checkDepositStatus_retryCount { s with retryCount := s.retryCount + 1 } env true
    simp only [fireScheduledRetry]
    rcases h with h | h <;> rw [h]
    · omega
    · simp only [Nat.succ_le]
      omega
  · intro ha
    simp [retryDepositStatusCheck, ha]

/-- Witness for C8: at attempt count 0 a network-classified failure
schedules a 1000 ms retry and the counter stays bounded; at attempt count 3
no retry is scheduled; the manual retry resets the counter. -/
theorem network_backoff_retry_policy_witness :
    (checkDepositStatus baseState failingNetworkPollEnv false).scheduledDelay =
      some (2 ^ baseState.retryCount * 1000) ∧
    baseState.retryCount < 3 ∧
    ((checkDepositStatus baseState failingNetworkPollEnv false).state.retryCount = 0 ∨
      (checkDepositStatus baseState failingNetworkPollEnv false).state.retryCount =
        baseState.retryCount) ∧
    (fireScheduledRetry baseState failingNetworkPollEnv).state.retryCount ≤ 3 ∧
    retryDepositStatusCheck baseState failingNetworkPollEnv =
      checkDepositStatus { baseState with retryCount := 0 } failingNetworkPollEnv false ∧
    (checkDepositStatus { baseState with retryCount := 3 } failingNetworkPollEnv
      false).scheduledDelay = none := by
  have h := network_backoff_retry_policy baseState failingNetworkPollEnv false 1000
    "network glitch" "0x1111111111111111111111111111111111111111"
  have h3 := network_backoff_retry_policy { baseState with retryCount := 3 }
    failingNetworkPollEnv false 1000 "network glitch"
    "0x1111111111111111111111111111111111111111"
  exact ⟨h.2.1 ⟨by decide, by decide, by decide⟩, (h.1 (by decide)).2.1, h.2.2.2.1,
    h.2.2.2.2.1 (by decide), h.2.2.2.2.2 (by decide), h3.2.2.1 (by decide)⟩

end SecurityDepositFe
